import Mathlib

/-!
Verification of the key-issuance core of the unkey API server.

The development shallowly embeds:
  * the entity model (`entities` namespace) and the persisted record shapes
    (`models` namespace) used by `apps/api/pkg/database/conversion.go`;
  * the entity/model translators `keyModelToEntity`, `keyEntityToModel`,
    `apiEntityToModel`, `apiModelToEntity` from `conversion.go`;
  * the issuance handler `createKey` from `apps/api/pkg/server/key_create.go`,
    with its collaborators (clock, credential hash, storage gateway, key
    generator, id generator) passed in as an explicit environment and the
    storage-gateway calls it makes recorded in an explicit trace;
  * the atomic quota decrement contract of
    `Database.DecrementRemainingKeyUsage` (interface.go), whose
    implementation is outside the sources at hand and is therefore modelled
    from the specification.

Go `time.Time` values are modelled by their Unix-millisecond integer, with 0
standing for Go's zero time (the handler only ever stores `time.UnixMilli e`
for `e > 0`, which is never the zero time, so the two readings agree on every
value that actually occurs). Go `int64` fields are modelled as `Int`.
-/

/-- JSON values, as stored in the schemaless `meta` field. Go deserializes
numbers to `float64`; numeric payloads are modelled as integers here, which
is enough for every present/absent combination the claims quantify over. -/
inductive Json where
  | null
  | bool (b : Bool)
  | num (n : Int)
  | str (s : String)
  | arr (elems : List Json)
  | obj (fields : List (String × Json))

/-- A Go `map[string]any` holding JSON-compatible values, as a field list. -/
abbrev JsonObj := List (String × Json)

/-- Go `sql.NullString`: the `string` field keeps its value even when
`valid` is false, exactly as in Go. -/
structure NullString where
  string : String
  valid : Bool
deriving DecidableEq, Repr

/-- Go `sql.NullInt64`. -/
structure NullInt64 where
  int64 : Int
  valid : Bool
deriving DecidableEq, Repr

/-- Unix milliseconds; 0 models Go's zero `time.Time`. -/
abbrev GoTime := Int

/-- Go `sql.NullTime`. -/
structure NullTime where
  time : GoTime
  valid : Bool
deriving DecidableEq, Repr

/-- The serialized-JSON `meta` column. `json.Marshal` of a
`map[string]any` over the modelled value domain never fails and
marshal-then-unmarshal is the identity on it, so the text column is modelled
by its parsed JSON value. Marshal output is never the empty string (a nil
map marshals to the four bytes of `null`), which is why `keyEntityToModel`
always marks this column valid. -/
structure NullJson where
  json : Json
  valid : Bool

/-- Modelled from the spec: package `models` is not among the sources at
hand; the stored auth-type column is a string-valued enum over
`key` / `jwt` (spec section 9), wrapped in a nullable column. The numeric
constant `1` written by `apiEntityToModel` denotes the `key` variant. -/
structure NullAuthType where
  authType : String
  valid : Bool
deriving DecidableEq, Repr

namespace entities

/-- Modelled from the spec: package `entities` is not among the sources at
hand; the auth-type enum is the closed variant set from spec section 3, plus
the Go zero value (`unspecified`) that an `entities.Api` literal starts
with before the translator's switch assigns a recognized variant. -/
inductive AuthType where
  | unspecified
  | key
  | jwt
deriving DecidableEq, Repr

/-- Rate-limit policy carried by a key (spec section 3). The Go field
`Type` is spelled `Type_` because `Type` is reserved in Lean. -/
structure Ratelimit where
  Type_ : String
  Limit : Int
  RefillRate : Int
  RefillInterval : Int
deriving DecidableEq, Repr

/-- Usage quota: `Enabled` flag plus count of uses left (spec section 3). -/
structure Quota where
  Enabled : Bool
  Remaining : Int
deriving DecidableEq, Repr

/-- Modelled from the spec: the `entities.Key` struct (package `entities`
absent from the sources), with exactly the fields read and written by
`conversion.go` and `key_create.go`. `Pfx`-free: no prefix field lives on
the entity; optional strings use the empty string for absence, as the
translators do. -/
structure Key where
  Id : String
  KeyAuthId : String
  WorkspaceId : String
  Hash : String
  Start : String
  OwnerId : String
  Name : String
  Meta : Option JsonObj
  CreatedAt : GoTime
  Expires : GoTime
  ForWorkspaceId : String
  Ratelimit : Option Ratelimit
  Remaining : Quota

/-- Modelled from the spec: the `entities.Api` struct (package `entities`
absent from the sources), with the fields used by `conversion.go` and
`key_create.go`. -/
structure Api where
  Id : String
  Name : String
  WorkspaceId : String
  AuthType : AuthType
  KeyAuthId : String
  IpWhitelist : List String
deriving DecidableEq, Repr

end entities

namespace models

/-- Modelled from the spec: the persisted `models.Key` row (package `models`
absent from the sources) — a flat row with nullable columns mirroring every
optional entity field, plus the serialized-JSON meta column (spec section 6),
with exactly the columns read and written by `conversion.go`. -/
structure Key where
  ID : String
  KeyAuthID : NullString
  WorkspaceID : String
  Hash : String
  Start : String
  OwnerID : NullString
  Name : NullString
  Meta : NullJson
  CreatedAt : GoTime
  Expires : NullTime
  ForWorkspaceID : NullString
  RatelimitType : NullString
  RatelimitLimit : NullInt64
  RatelimitRefillRate : NullInt64
  RatelimitRefillInterval : NullInt64
  RemainingRequests : NullInt64

/-- Modelled from the spec: the persisted `models.API` row (package `models`
absent from the sources), with the columns used by `conversion.go`. -/
structure API where
  ID : String
  Name : String
  WorkspaceID : String
  IPWhitelist : NullString
  AuthType : NullAuthType
  KeyAuthID : NullString
deriving Repr

end models

/-- `json.Unmarshal` of the meta column into a `map[string]any`: a JSON
object fills the map, JSON `null` leaves it nil, any other value is a type
error ("cannot unmarshal ... into Go value of type map[string]interface").
-/
def unmarshalMeta : Json → Except String (Option JsonObj)
  | Json.null => Except.ok none
  | Json.obj fields => Except.ok (some fields)
  | _ => Except.error "unable to unmarshal meta"

/-- `json.Marshal` of the entity's meta map: a nil map marshals to JSON
`null`, a map to a JSON object. -/
def marshalMeta : Option JsonObj → Json
  | none => Json.null
  | some fields => Json.obj fields

/-- `keyModelToEntity` from `conversion.go` lines 13-64: decode a persisted
row into a `entities.Key`, erroring when the meta column fails to
deserialize. Each nullable column is read only when valid; absent columns
leave the entity's zero value in place. -/
def keyModelToEntity (model : models.Key) : Except String entities.Key :=
  match if model.Meta.valid then unmarshalMeta model.Meta.json else Except.ok none with
  | Except.error e => Except.error e
  | Except.ok meta => Except.ok {
    Id := model.ID
    KeyAuthId := if model.KeyAuthID.valid then model.KeyAuthID.string else ""
    WorkspaceId := model.WorkspaceID
    Hash := model.Hash
    Start := model.Start
    CreatedAt := model.CreatedAt
    OwnerId := if model.OwnerID.valid then model.OwnerID.string else ""
    Name := if model.Name.valid then model.Name.string else ""
    Expires := if model.Expires.valid then model.Expires.time else 0
    ForWorkspaceId := if model.ForWorkspaceID.valid then model.ForWorkspaceID.string else ""
    Meta := meta
    Ratelimit :=
      if model.RatelimitType.valid then
        some {
          Type_ := model.RatelimitType.string
          Limit := model.RatelimitLimit.int64
          RefillRate := model.RatelimitRefillRate.int64
          RefillInterval := model.RatelimitRefillInterval.int64
        }
      else none
    Remaining :=
      if model.RemainingRequests.valid then
        { Enabled := true, Remaining := model.RemainingRequests.int64 }
      else { Enabled := false, Remaining := 0 }
    }

/-- `keyEntityToModel` from `conversion.go` lines 66-108: encode a
`entities.Key` as a persisted row. `json.Marshal` cannot fail over the
modelled meta domain, so the Go error return is dropped; the meta column is
always valid because marshal output is never empty. Note the ratelimit
columns: each carries its own validity condition, and the refill-interval
column's validity is gated on `RefillRate > 0` (conversion.go line 99). -/
def keyEntityToModel (e : entities.Key) : models.Key :=
  let base : models.Key := {
    ID := e.Id
    KeyAuthID := { string := e.KeyAuthId, valid := e.KeyAuthId ≠ "" }
    Start := e.Start
    WorkspaceID := e.WorkspaceId
    Hash := e.Hash
    OwnerID := { string := e.OwnerId, valid := e.OwnerId ≠ "" }
    Name := { string := e.Name, valid := e.Name ≠ "" }
    Meta := { json := marshalMeta e.Meta, valid := true }
    CreatedAt := e.CreatedAt
    Expires := { time := e.Expires, valid := e.Expires ≠ 0 }
    ForWorkspaceID := { string := e.ForWorkspaceId, valid := e.ForWorkspaceId ≠ "" }
    RatelimitType := { string := "", valid := false }
    RatelimitLimit := { int64 := 0, valid := false }
    RatelimitRefillRate := { int64 := 0, valid := false }
    RatelimitRefillInterval := { int64 := 0, valid := false }
    RemainingRequests := { int64 := 0, valid := false }
  }
  let withRl :=
    match e.Ratelimit with
    | none => base
    | some r =>
      { base with
        RatelimitType := { string := r.Type_, valid := r.Type_ ≠ "" }
        RatelimitLimit := { int64 := r.Limit, valid := r.Limit > 0 }
        RatelimitRefillRate := { int64 := r.RefillRate, valid := r.RefillRate > 0 }
        RatelimitRefillInterval := { int64 := r.RefillInterval, valid := r.RefillRate > 0 } }
  if e.Remaining.Enabled then
    { withRl with RemainingRequests := { int64 := e.Remaining.Remaining, valid := true } }
  else withRl

/-- `apiEntityToModel` from `conversion.go` lines 133-144: the auth-type
column is written as the `key` variant (constant 1), marked valid, for every
entity. -/
def apiEntityToModel (a : entities.Api) : models.API :=
  {
    ID := a.Id
    Name := a.Name
    WorkspaceID := a.WorkspaceId
    IPWhitelist := { string := String.intercalate "," a.IpWhitelist, valid := a.IpWhitelist.length > 0 }
    AuthType := { authType := "key", valid := true }
    KeyAuthID := { string := a.KeyAuthId, valid := a.KeyAuthId ≠ "" }
  }

/-- `apiModelToEntity` from `conversion.go` lines 146-171: the entity's
`KeyAuthId` is copied from the column's string unconditionally (line 151);
the switch on the stored auth type recognizes `key` and `jwt` and has no
default case, so an unrecognized stored value leaves the zero auth type. -/
def apiModelToEntity (model : models.API) : entities.Api :=
  let a : entities.Api := {
    Id := model.ID
    Name := model.Name
    WorkspaceId := model.WorkspaceID
    KeyAuthId := model.KeyAuthID.string
    AuthType := .unspecified
    IpWhitelist := []
  }
  let a :=
    if model.IPWhitelist.valid then
      { a with IpWhitelist := model.IPWhitelist.string.splitOn "," }
    else a
  if model.AuthType.valid then
    match model.AuthType.authType with
    | "key" => { a with KeyAuthId := model.KeyAuthID.string, AuthType := .key }
    | "jwt" => { a with AuthType := .jwt }
    | _ => a
  else a

/-- Result of a storage-gateway lookup: `database.ErrNotFound` is
distinguished from any other error, exactly as the handler's
`errors.Is(err, database.ErrNotFound)` branches do. -/
inductive DbResult (α : Type) where
  | found (value : α)
  | notFound
  | dbError
deriving DecidableEq, Repr

/-- The error codes of the `ErrorResponse` body used by `key_create.go`. -/
inductive ErrorCode where
  | BAD_REQUEST
  | UNAUTHORIZED
  | INTERNAL_SERVER_ERROR
deriving DecidableEq, Repr

/-- The handler's outcome: an error response with its HTTP status and
`ErrorCode`, the short-circuit on a failed `getKeyHash` (whose exact
rendering lives outside the sources at hand), or the 200 response carrying
the one-time plaintext and the new key id. -/
inductive Response where
  | err (status : Nat) (code : ErrorCode)
  | authHeaderError
  | ok (key : String) (keyId : String)
deriving DecidableEq, Repr

/-- A call made against the storage gateway (`s.db`) by the handler, in
order. The Kafka event emission is not a storage call and never affects the
response, so it is not traced. -/
inductive DbCall where
  | getKeyByHash (hash : String)
  | getApi (apiId : String)
  | createKey (newKey : entities.Key)

/-- The parsed `CreateKeyRequest` body of `key_create.go` lines 18-39.
`Pfx` models the Go field `Prefix`. The anonymous ratelimit struct has the
same four fields as `entities.Ratelimit` and is modelled by it. A nil
`Meta` map is `none`. -/
structure CreateKeyRequest where
  ApiId : String
  Pfx : String
  Name : String
  ByteLength : Int
  OwnerId : String
  Meta : Option JsonObj
  Expires : Int
  Ratelimit : Option entities.Ratelimit
  ForWorkspaceId : String
  Remaining : Int

/-- The handler's collaborators, passed explicitly: the clock
(`time.Now().UnixMilli()`; the handler's two `time.Now()` calls are the same
logical instant), the result of `getKeyHash` on the Authorization header
(`none` models its error return; its code is outside the sources at hand),
the storage lookups, `keys.NewV1Key` (`none` models a generation error),
`hash.Sha256`, `uid.Key()`, and whether `CreateKey` persistence succeeds. -/
structure Env where
  now : Int
  authHash : Option String
  getKeyByHash : String → DbResult entities.Key
  getApi : String → DbResult entities.Api
  newV1Key : String → Int → Option String
  sha256 : String → String
  newKeyId : String
  createKeyOk : entities.Key → Bool

/-- The new `entities.Key` assembled by `key_create.go` lines 143-168:
id from `uid.Key()`, namespace from the resolved Api, `WorkspaceId` from
the root key's `ForWorkspaceId`, hash of the generated plaintext, `Start`
keeping the prefix plus delimiter plus first four secret characters, and
the optional expiry, quota and ratelimit copied from the request. -/
def newKeyOf (env : Env) (req : CreateKeyRequest) (authKey : entities.Key)
    (api : entities.Api) (keyValue : String) : entities.Key :=
  {
    Id := env.newKeyId
    KeyAuthId := api.KeyAuthId
    WorkspaceId := authKey.ForWorkspaceId
    Name := req.Name
    Hash := env.sha256 keyValue
    Start := keyValue.take (req.Pfx.length + 5)
    OwnerId := req.OwnerId
    Meta := req.Meta
    CreatedAt := env.now
    Expires := if req.Expires > 0 then req.Expires else 0
    ForWorkspaceId := ""
    Ratelimit := req.Ratelimit
    Remaining :=
      if req.Remaining > 0 then { Enabled := true, Remaining := req.Remaining }
      else { Enabled := false, Remaining := 0 }
  }

/-- Whether `s.validator.Struct req` accepts the body: the only validation
tag in `CreateKeyRequest` is `required` on `ApiId`, which fails exactly on
the zero value (empty string). -/
def requestValid (req : CreateKeyRequest) : Bool :=
  req.ApiId ≠ ""

/-- The `createKey` handler of `key_create.go` lines 46-191, from the parsed
request onward, returning the response together with the ordered trace of
storage-gateway calls. Each guard short-circuits exactly where the Go code
returns. -/
def createKey (env : Env) (req : CreateKeyRequest) : Response × List DbCall :=
  if ¬ requestValid req then (.err 400 .BAD_REQUEST, [])
  else if req.Expires > 0 ∧ req.Expires < env.now then (.err 400 .BAD_REQUEST, [])
  else
    match env.authHash with
    | none => (.authHeaderError, [])
    | some authHash =>
      match env.getKeyByHash authHash with
      | .notFound => (.err 401 .UNAUTHORIZED, [.getKeyByHash authHash])
      | .dbError => (.err 500 .INTERNAL_SERVER_ERROR, [.getKeyByHash authHash])
      | .found authKey =>
        if authKey.ForWorkspaceId = "" then
          (.err 400 .BAD_REQUEST, [.getKeyByHash authHash])
        else
          match env.getApi req.ApiId with
          | .notFound =>
            (.err 400 .BAD_REQUEST, [.getKeyByHash authHash, .getApi req.ApiId])
          | .dbError =>
            (.err 500 .INTERNAL_SERVER_ERROR, [.getKeyByHash authHash, .getApi req.ApiId])
          | .found api =>
            if api.WorkspaceId ≠ authKey.ForWorkspaceId then
              (.err 401 .UNAUTHORIZED, [.getKeyByHash authHash, .getApi req.ApiId])
            else if api.AuthType ≠ .key ∨ api.KeyAuthId = "" then
              (.err 400 .BAD_REQUEST, [.getKeyByHash authHash, .getApi req.ApiId])
            else
              match env.newV1Key req.Pfx req.ByteLength with
              | none =>
                (.err 500 .INTERNAL_SERVER_ERROR, [.getKeyByHash authHash, .getApi req.ApiId])
              | some keyValue =>
                let newKey := newKeyOf env req authKey api keyValue
                if env.createKeyOk newKey then
                  (.ok keyValue newKey.Id,
                   [.getKeyByHash authHash, .getApi req.ApiId, .createKey newKey])
                else
                  (.err 500 .INTERNAL_SERVER_ERROR,
                   [.getKeyByHash authHash, .getApi req.ApiId, .createKey newKey])

/-- Modelled from the spec: the implementation of
`Database.DecrementRemainingKeyUsage` (declared in `interface.go` line 28)
is not among the sources at hand. Per spec section 4.2 it is a single
atomic conditional decrement: when the remaining count is positive it is
decremented and the new count returned to the caller; otherwise the call
fails and the stored count is unchanged. -/
def decrementStep (remaining : Int) : Option Int × Int :=
  if remaining > 0 then (some (remaining - 1), remaining - 1)
  else (none, remaining)

/-- N concurrent callers of the atomic decrement: because each call is a
single atomic store operation, every interleaving is some sequential order
of the N steps, which this function runs, collecting each caller's observed
result and the final stored count. -/
def runDecrements : Nat → Int → List (Option Int) × Int
  | 0, r => ([], r)
  | n + 1, r =>
    let s := decrementStep r
    let rest := runDecrements n s.2
    (s.1 :: rest.1, rest.2)

/-- The results observed when R callers succeed: the post-decrement values
R-1, R-2, ..., 0, in caller order. -/
def countdown : Nat → List (Option Int)
  | 0 => []
  | r + 1 => some (r : Int) :: countdown r

/-- The successful post-decrement values R-1, ..., 0 as plain integers. -/
def valuesList : Nat → List Int
  | 0 => []
  | r + 1 => (r : Int) :: valuesList r

/-! Concrete instances used by counterexamples and witnesses. -/

/-- A key whose ratelimit policy is present but has an empty `Type`:
`keyEntityToModel` then marks the type column invalid and decoding drops
the whole policy. -/
def c6key : entities.Key := {
  Id := "key_1", KeyAuthId := "ka_1", WorkspaceId := "ws_1", Hash := "h1", Start := "st",
  OwnerId := "", Name := "", Meta := none, CreatedAt := 1, Expires := 0, ForWorkspaceId := "",
  Ratelimit := some { Type_ := "", Limit := 1, RefillRate := 1, RefillInterval := 1 },
  Remaining := { Enabled := false, Remaining := 0 } }

/-- A key exercising C6's amended round-trip at every-field presence,
with metadata holding an empty map and a nested object. -/
def c6wkey : entities.Key := {
  Id := "key_3", KeyAuthId := "ka_1", WorkspaceId := "ws_1", Hash := "h3", Start := "pf_ab",
  OwnerId := "user_1", Name := "prod", CreatedAt := 100, Expires := 200, ForWorkspaceId := "ws_9",
  Meta := some [("note", Json.str "x"), ("empty", Json.obj []),
    ("nested", Json.obj [("depth", Json.num 2), ("flag", Json.bool true)]),
    ("tags", Json.arr [Json.str "a", Json.null])],
  Ratelimit := some { Type_ := "fast", Limit := 10, RefillRate := 1, RefillInterval := 1000 },
  Remaining := { Enabled := true, Remaining := 50 } }

/-- A key whose ratelimit has a non-empty type but `RefillRate = 0`: the
type and limit columns come out valid while the two refill columns do not. -/
def c7key : entities.Key := {
  Id := "key_2", KeyAuthId := "ka_1", WorkspaceId := "ws_1", Hash := "h2", Start := "st",
  OwnerId := "", Name := "", Meta := none, CreatedAt := 1, Expires := 0, ForWorkspaceId := "",
  Ratelimit := some { Type_ := "fixed", Limit := 10, RefillRate := 0, RefillInterval := 60000 },
  Remaining := { Enabled := false, Remaining := 0 } }

/-- A persisted Api row whose stored auth-type value is neither `key` nor
`jwt`. -/
def c8model : models.API := {
  ID := "api_1", Name := "payments", WorkspaceID := "ws_1",
  IPWhitelist := { string := "", valid := false },
  AuthType := { authType := "banana", valid := true },
  KeyAuthID := { string := "", valid := false } }

/-- A persisted Api row with auth-type `jwt` and a stored keyAuthId. -/
def c9model : models.API := {
  ID := "api_2", Name := "checkout", WorkspaceID := "ws_1",
  IPWhitelist := { string := "", valid := false },
  AuthType := { authType := "jwt", valid := true },
  KeyAuthID := { string := "ka_1", valid := true } }

/-- A root key scoped to workspace `ws_1`, living in workspace `ws_root`. -/
def rootKey1 : entities.Key := {
  Id := "root", KeyAuthId := "", WorkspaceId := "ws_root", Hash := "ah", Start := "",
  OwnerId := "", Name := "", Meta := none, CreatedAt := 0, Expires := 0,
  ForWorkspaceId := "ws_1", Ratelimit := none,
  Remaining := { Enabled := false, Remaining := 0 } }

/-- An ordinary (non-root) key: its `ForWorkspaceId` is empty. -/
def plainKey1 : entities.Key := {
  Id := "plain", KeyAuthId := "ka_0", WorkspaceId := "ws_root", Hash := "ah", Start := "",
  OwnerId := "", Name := "", Meta := none, CreatedAt := 0, Expires := 0,
  ForWorkspaceId := "", Ratelimit := none,
  Remaining := { Enabled := false, Remaining := 0 } }

/-- A key-auth-configured Api in workspace `ws_1`. -/
def api1 : entities.Api := {
  Id := "api_1", Name := "api", WorkspaceId := "ws_1", AuthType := .key,
  KeyAuthId := "ka_1", IpWhitelist := [] }

/-- A key-auth-configured Api in workspace `ws_2`. -/
def api2 : entities.Api := {
  Id := "api_1", Name := "api", WorkspaceId := "ws_2", AuthType := .key,
  KeyAuthId := "ka_2", IpWhitelist := [] }

/-- An environment whose credential resolves to `rootKey1` and whose target
Api is `api1`, matching the root key's scope; generation and persistence
succeed. -/
def c1env : Env := {
  now := 5
  authHash := some "ah"
  getKeyByHash := fun h => if h = "ah" then .found rootKey1 else .notFound
  getApi := fun a => if a = "api_1" then .found api1 else .notFound
  newV1Key := fun p _ => some (p ++ "_abcdefgh")
  sha256 := fun s => "sha-" ++ s
  newKeyId := "key_new"
  createKeyOk := fun _ => true }

/-- A valid issuance request against `api_1` with no expiry. -/
def c1req : CreateKeyRequest := {
  ApiId := "api_1", Pfx := "test", Name := "", ByteLength := 16, OwnerId := "",
  Meta := none, Expires := 0, Ratelimit := none, ForWorkspaceId := "", Remaining := 0 }

/-- Same as `c1env` but the presented credential resolves to `plainKey1`,
which has no `ForWorkspaceId`. -/
def c2env : Env := {
  now := 5
  authHash := some "ah"
  getKeyByHash := fun h => if h = "ah" then .found plainKey1 else .notFound
  getApi := fun a => if a = "api_1" then .found api1 else .notFound
  newV1Key := fun p _ => some (p ++ "_abcdefgh")
  sha256 := fun s => "sha-" ++ s
  newKeyId := "key_new"
  createKeyOk := fun _ => true }

/-- Same as `c1env` but the target Api lives in workspace `ws_2`, not the
root key's `ws_1`. -/
def c3env : Env := {
  now := 5
  authHash := some "ah"
  getKeyByHash := fun h => if h = "ah" then .found rootKey1 else .notFound
  getApi := fun a => if a = "api_1" then .found api2 else .notFound
  newV1Key := fun p _ => some (p ++ "_abcdefgh")
  sha256 := fun s => "sha-" ++ s
  newKeyId := "key_new"
  createKeyOk := fun _ => true }

/-- A request whose `Expires` equals the current time of `c1env` (5): not
strictly in the future, yet not strictly in the past either. -/
def c4req : CreateKeyRequest := {
  ApiId := "api_1", Pfx := "test", Name := "", ByteLength := 16, OwnerId := "",
  Meta := none, Expires := 5, Ratelimit := none, ForWorkspaceId := "", Remaining := 0 }

/-- A request whose `Expires` (3) lies strictly before `c1env`'s now (5). -/
def c4wreq : CreateKeyRequest := {
  ApiId := "api_1", Pfx := "test", Name := "", ByteLength := 16, OwnerId := "",
  Meta := none, Expires := 3, Ratelimit := none, ForWorkspaceId := "", Remaining := 0 }

/-! Helper lemmas. -/

lemma if_eq_empty (s : String) : (if s = "" then "" else s) = s := by
  split <;> simp_all

lemma if_eq_zero (e : Int) : (if e = 0 then 0 else e) = e := by
  split <;> simp_all

lemma runDecrements_zero (n : Nat) : runDecrements n 0 = (List.replicate n none, 0) := by
  induction n with
  | zero => rfl
  | succ n ih => simp [runDecrements, decrementStep, ih, List.replicate_succ]

lemma runDecrements_closed (r n : Nat) (h : r ≤ n) :
    runDecrements n r = (countdown r ++ List.replicate (n - r) none, 0) := by
  induction r generalizing n with
  | zero => simpa [countdown] using runDecrements_zero n
  | succ r ih =>
    cases n with
    | zero => omega
    | succ m =>
      have hr : r ≤ m := by omega
      have hcast : ((r + 1 : Nat) : Int) - 1 = (r : Int) := by push_cast; ring
      have hpos : ((r + 1 : Nat) : Int) > 0 := by positivity
      simp only [runDecrements, decrementStep, if_pos hpos, hcast, ih m hr, countdown]
      simp [Nat.succ_sub_succ]

lemma filterMap_countdown (r : Nat) : (countdown r).filterMap id = valuesList r := by
  induction r with
  | zero => rfl
  | succ r ih => simp [countdown, valuesList, ih]

lemma countP_countdown (r : Nat) :
    (countdown r).countP (fun o => o.isSome) = r := by
  induction r with
  | zero => rfl
  | succ r ih => simp [countdown, List.countP_cons, ih]

lemma valuesList_lt (r : Nat) : ∀ x ∈ valuesList r, x < (r : Int) := by
  induction r with
  | zero => simp [valuesList]
  | succ r ih =>
    intro x hx
    simp only [valuesList, List.mem_cons] at hx
    rcases hx with rfl | hx
    · push_cast; omega
    · have := ih x hx
      push_cast
      omega

lemma valuesList_nonneg (r : Nat) : ∀ x ∈ valuesList r, 0 ≤ x := by
  induction r with
  | zero => simp [valuesList]
  | succ r ih =>
    intro x hx
    simp only [valuesList, List.mem_cons] at hx
    rcases hx with rfl | hx
    · positivity
    · exact ih x hx

lemma valuesList_pairwise (r : Nat) : (valuesList r).Pairwise (fun a b => a > b) := by
  induction r with
  | zero => simp [valuesList]
  | succ r ih =>
    refine List.Pairwise.cons ?_ ih
    intro x hx
    exact valuesList_lt r x hx

/-! Claim theorems. -/

/-- C1: when the presented credential resolves to a root key with non-empty
`ForWorkspaceId`, the target Api is found in exactly that workspace and is
key-auth-configured, the request is valid with no stale expiry, and
generation and persistence succeed, then the handler responds 200 with the
plaintext and the new key id, the persisted key's `WorkspaceId` is the root
key's `ForWorkspaceId` (never the root key's own workspace when the two
differ), its `KeyAuthId` is the Api's, and its hash is the digest of the
plaintext returned. -/
theorem C1_issuance_persists_key_scoped_to_forWorkspaceId
    (env : Env) (req : CreateKeyRequest) (authHash : String)
    (authKey : entities.Key) (api : entities.Api) (keyValue : String)
    (hA : env.authHash = some authHash)
    (hK : env.getKeyByHash authHash = .found authKey)
    (hFW : authKey.ForWorkspaceId ≠ "")
    (hApi : env.getApi req.ApiId = .found api)
    (hWs : api.WorkspaceId = authKey.ForWorkspaceId)
    (hAT : api.AuthType = .key)
    (hKA : api.KeyAuthId ≠ "")
    (hV : requestValid req = true)
    (hExp : ¬(req.Expires > 0 ∧ req.Expires < env.now))
    (hGen : env.newV1Key req.Pfx req.ByteLength = some keyValue)
    (hPersist : env.createKeyOk (newKeyOf env req authKey api keyValue) = true) :
    (createKey env req).1 =
      Response.ok keyValue (newKeyOf env req authKey api keyValue).Id ∧
    DbCall.createKey (newKeyOf env req authKey api keyValue) ∈ (createKey env req).2 ∧
    (newKeyOf env req authKey api keyValue).WorkspaceId = authKey.ForWorkspaceId ∧
    (newKeyOf env req authKey api keyValue).KeyAuthId = api.KeyAuthId ∧
    (newKeyOf env req authKey api keyValue).Hash = env.sha256 keyValue ∧
    (newKeyOf env req authKey api keyValue).Id = env.newKeyId ∧
    (authKey.WorkspaceId ≠ authKey.ForWorkspaceId →
      (newKeyOf env req authKey api keyValue).WorkspaceId ≠ authKey.WorkspaceId) := by
  have hEq : createKey env req =
      (Response.ok keyValue (newKeyOf env req authKey api keyValue).Id,
       [DbCall.getKeyByHash authHash, DbCall.getApi req.ApiId,
        DbCall.createKey (newKeyOf env req authKey api keyValue)]) := by
    unfold createKey
    simp [hA, hK, hApi, hV, hExp, hFW, hWs, hAT, hKA, hGen, hPersist]
  refine ⟨by rw [hEq], by rw [hEq]; simp, rfl, rfl, rfl, rfl, ?_⟩
  intro hne h
  have h2 : authKey.ForWorkspaceId = authKey.WorkspaceId := h
  exact hne h2.symm

theorem C1_witness :
    c1env.getKeyByHash "ah" = DbResult.found rootKey1 ∧
    api1.WorkspaceId = rootKey1.ForWorkspaceId ∧
    (createKey c1env c1req).1 =
      Response.ok "test_abcdefgh" (newKeyOf c1env c1req rootKey1 api1 "test_abcdefgh").Id ∧
    (newKeyOf c1env c1req rootKey1 api1 "test_abcdefgh").WorkspaceId = rootKey1.ForWorkspaceId ∧
    (newKeyOf c1env c1req rootKey1 api1 "test_abcdefgh").KeyAuthId = api1.KeyAuthId ∧
    (newKeyOf c1env c1req rootKey1 api1 "test_abcdefgh").Hash = c1env.sha256 "test_abcdefgh" := by
  have h := C1_issuance_persists_key_scoped_to_forWorkspaceId c1env c1req "ah"
    rootKey1 api1 "test_abcdefgh" rfl rfl (by decide) rfl rfl rfl (by decide)
    (by decide) (by decide) rfl rfl
  exact ⟨rfl, rfl, h.1, h.2.2.1, h.2.2.2.1, h.2.2.2.2.1⟩

/-- C2: when the presented credential resolves to a key with an empty
`ForWorkspaceId`, the handler responds 400 BAD_REQUEST and never calls
`CreateKey`, no matter what else the request contains. -/
theorem C2_missing_forWorkspaceId_rejected
    (env : Env) (req : CreateKeyRequest) (authHash : String)
    (authKey : entities.Key)
    (hA : env.authHash = some authHash)
    (hK : env.getKeyByHash authHash = .found authKey)
    (hFW : authKey.ForWorkspaceId = "") :
    (createKey env req).1 = Response.err 400 ErrorCode.BAD_REQUEST ∧
    ∀ k, DbCall.createKey k ∉ (createKey env req).2 := by
  unfold createKey
  by_cases hv : requestValid req <;>
    by_cases he : (req.Expires > 0 ∧ req.Expires < env.now) <;>
      simp [hv, he, hA, hK, hFW]

theorem C2_witness :
    plainKey1.ForWorkspaceId = "" ∧
    (createKey c2env c1req).1 = Response.err 400 ErrorCode.BAD_REQUEST :=
  ⟨rfl, (C2_missing_forWorkspaceId_rejected c2env c1req "ah" plainKey1 rfl rfl rfl).1⟩

/-- C3: when the target Api exists but its workspace differs from the
authenticated root key's `ForWorkspaceId`, the handler responds 401
UNAUTHORIZED and never calls `CreateKey`, whatever the Api's own
configuration. -/
theorem C3_workspace_mismatch_rejected_401
    (env : Env) (req : CreateKeyRequest) (authHash : String)
    (authKey : entities.Key) (api : entities.Api)
    (hA : env.authHash = some authHash)
    (hK : env.getKeyByHash authHash = .found authKey)
    (hFW : authKey.ForWorkspaceId ≠ "")
    (hApi : env.getApi req.ApiId = .found api)
    (hMismatch : api.WorkspaceId ≠ authKey.ForWorkspaceId)
    (hV : requestValid req = true)
    (hExp : ¬(req.Expires > 0 ∧ req.Expires < env.now)) :
    (createKey env req).1 = Response.err 401 ErrorCode.UNAUTHORIZED ∧
    ∀ k, DbCall.createKey k ∉ (createKey env req).2 := by
  unfold createKey
  simp [hA, hK, hFW, hApi, hMismatch, hV, hExp]

theorem C3_witness :
    api2.WorkspaceId = "ws_2" ∧
    rootKey1.ForWorkspaceId = "ws_1" ∧
    (createKey c3env c1req).1 = Response.err 401 ErrorCode.UNAUTHORIZED :=
  ⟨rfl, rfl,
   (C3_workspace_mismatch_rejected_401 c3env c1req "ah" rootKey1 api2 rfl rfl
     (by decide) rfl (by decide) (by decide) (by decide)).1⟩

/-- C4 counterexample: a request whose `Expires` equals the current time
(so `Expires` is less than or equal to now) is not rejected — the handler
issues the key with a 200 response after three storage-gateway calls,
because the code only rejects `Expires` strictly in the past. -/
theorem C4_counterexample :
    c4req.Expires = c1env.now ∧
    (createKey c1env c4req).1 = Response.ok "test_abcdefgh" "key_new" ∧
    (createKey c1env c4req).2.length = 3 :=
  ⟨rfl, rfl, rfl⟩

/-- C4 (amended): when `Expires` is set and lies strictly before the
current time, the handler responds 400 BAD_REQUEST without making any
storage-gateway call; `Expires` exactly equal to the current time is
accepted. -/
theorem C4_strictly_past_expires_rejected
    (env : Env) (req : CreateKeyRequest)
    (h1 : req.Expires > 0) (h2 : req.Expires < env.now) :
    createKey env req = (Response.err 400 ErrorCode.BAD_REQUEST, []) := by
  unfold createKey
  by_cases hv : requestValid req <;> simp [hv, h1, h2]

theorem C4_witness :
    c4wreq.Expires > 0 ∧ c4wreq.Expires < c1env.now ∧
    createKey c1env c4wreq = (Response.err 400 ErrorCode.BAD_REQUEST, []) :=
  ⟨by decide, by decide,
   C4_strictly_past_expires_rejected c1env c4wreq (by decide) (by decide)⟩

/-- C5: N atomic decrement calls against a key with remaining count R
(R < N), in any interleaving (hence in some sequential order of the atomic
steps), produce exactly R successes; the callers observe exactly the
distinct values R-1, R-2, ..., 0 in this strictly decreasing order, every
observed value is non-negative, and the final stored count is 0. -/
theorem C5_concurrent_decrement_safety (R N : Nat) (h : R < N) :
    ((runDecrements N R).1.countP (fun o => o.isSome)) = R ∧
    (runDecrements N R).1.filterMap id = valuesList R ∧
    ((runDecrements N R).1.filterMap id).Pairwise (fun a b => a > b) ∧
    (∀ x ∈ (runDecrements N R).1.filterMap id, 0 ≤ x) ∧
    (runDecrements N R).2 = 0 := by
  have hc := runDecrements_closed R N (le_of_lt h)
  rw [hc]
  refine ⟨?_, ?_, ?_, ?_, rfl⟩
  · simp [List.countP_append, countP_countdown]
  · simp [List.filterMap_append, filterMap_countdown]
  · simp [List.filterMap_append, filterMap_countdown, valuesList_pairwise]
  · simp [List.filterMap_append, filterMap_countdown]
    exact valuesList_nonneg R

theorem C5_witness :
    (2 : Nat) < 3 ∧
    ((runDecrements 3 2).1.countP (fun o => o.isSome)) = 2 ∧
    (runDecrements 3 2).1.filterMap id = valuesList 2 ∧
    (runDecrements 3 2).2 = 0 := by
  have h := C5_concurrent_decrement_safety 2 3 (by decide)
  exact ⟨by decide, h.1, h.2.1, h.2.2.2.2⟩

/-- C6 counterexample: a key whose ratelimit policy is present but has an
empty `Type` does not round-trip — encoding marks the type column invalid,
so decoding yields a key with no ratelimit at all. -/
theorem C6_counterexample : keyModelToEntity (keyEntityToModel c6key) ≠ Except.ok c6key := by
  intro h
  have h1 : keyModelToEntity (keyEntityToModel c6key) =
      Except.ok { c6key with Ratelimit := none } := by rfl
  rw [h1] at h
  simp only [Except.ok.injEq] at h
  have h2 := congrArg entities.Key.Ratelimit h
  simp [c6key] at h2

/-- C6 (amended): encoding a key with `keyEntityToModel` and decoding with
`keyModelToEntity` returns the original key for every combination of
present/absent optional fields — including metadata with nested objects and
empty maps — provided a present ratelimit policy has a non-empty `Type` and
a disabled quota stores the count 0. -/
theorem C6_roundtrip_amended (k : entities.Key)
    (h1 : k.Ratelimit.all (fun r => r.Type_ != "") = true)
    (h2 : k.Remaining.Enabled = false → k.Remaining.Remaining = 0) :
    keyModelToEntity (keyEntityToModel k) = Except.ok k := by
  obtain ⟨Id, KeyAuthId, WorkspaceId, Hash, Start, OwnerId, Name, Meta,
    CreatedAt, Expires, ForWorkspaceId, Ratelimit, Remaining⟩ := k
  obtain ⟨En, Rem⟩ := Remaining
  cases Ratelimit <;> cases Meta <;> cases En <;>
    simp_all [keyEntityToModel, keyModelToEntity, unmarshalMeta, marshalMeta,
      Option.all, if_eq_empty, if_eq_zero]

theorem C6_witness :
    c6wkey.Ratelimit.all (fun r => r.Type_ != "") = true ∧
    keyModelToEntity (keyEntityToModel c6wkey) = Except.ok c6wkey :=
  ⟨by decide, C6_roundtrip_amended c6wkey (by decide) (by decide)⟩

/-- C7 counterexample: a key with a present ratelimit whose `RefillRate`
is 0 is encoded with the type and limit columns valid but the refill
columns invalid — partial presence across the four ratelimit columns does
occur. -/
theorem C7_counterexample :
    c7key.Ratelimit ≠ none ∧
    ¬(((keyEntityToModel c7key).RatelimitType.valid = true ∧
       (keyEntityToModel c7key).RatelimitLimit.valid = true ∧
       (keyEntityToModel c7key).RatelimitRefillRate.valid = true ∧
       (keyEntityToModel c7key).RatelimitRefillInterval.valid = true) ∨
      ((keyEntityToModel c7key).RatelimitType.valid = false ∧
       (keyEntityToModel c7key).RatelimitLimit.valid = false ∧
       (keyEntityToModel c7key).RatelimitRefillRate.valid = false ∧
       (keyEntityToModel c7key).RatelimitRefillInterval.valid = false)) := by
  constructor
  · simp [c7key]
  · intro h
    rcases h with ⟨_, _, h3, _⟩ | ⟨h1, _, _, _⟩
    · exact absurd h3 (by decide)
    · exact absurd h1 (by decide)

/-- C7 (amended): `keyEntityToModel` marks each ratelimit column present
individually — the type column iff `Type` is non-empty, the limit column
iff `Limit > 0`, and both refill columns iff `RefillRate > 0` (the
refill-interval column is gated on `RefillRate`, not on its own value);
when the policy is absent all four columns are absent. -/
theorem C7_per_column_presence (e : entities.Key) :
    (keyEntityToModel e).RatelimitType.valid =
      (match e.Ratelimit with | none => false | some r => decide (r.Type_ ≠ "")) ∧
    (keyEntityToModel e).RatelimitLimit.valid =
      (match e.Ratelimit with | none => false | some r => decide (r.Limit > 0)) ∧
    (keyEntityToModel e).RatelimitRefillRate.valid =
      (match e.Ratelimit with | none => false | some r => decide (r.RefillRate > 0)) ∧
    (keyEntityToModel e).RatelimitRefillInterval.valid =
      (match e.Ratelimit with | none => false | some r => decide (r.RefillRate > 0)) := by
  cases hr : e.Ratelimit <;> cases hEn : e.Remaining.Enabled <;>
    simp [keyEntityToModel, hr, hEn]

/-- C8 counterexample: translating a persisted Api row whose stored
auth-type value is `banana` (neither `key` nor `jwt`) is not an error —
`apiModelToEntity` is a total function and silently yields an entity with
the defaulted (zero) auth type. -/
theorem C8_counterexample :
    c8model.AuthType.valid = true ∧
    c8model.AuthType.authType = "banana" ∧
    apiModelToEntity c8model =
      { Id := "api_1", Name := "payments", WorkspaceId := "ws_1",
        AuthType := .unspecified, KeyAuthId := "", IpWhitelist := [] } := by
  refine ⟨rfl, rfl, ?_⟩
  rfl

/-- C8 (amended): for every persisted Api row whose stored auth-type value
is present but neither `key` nor `jwt`, `apiModelToEntity` silently
produces an entity with the defaulted (zero) auth type; the translator has
no error path. -/
theorem C8_silent_default_amended (m : models.API)
    (hv : m.AuthType.valid = true)
    (hk : m.AuthType.authType ≠ "key")
    (hj : m.AuthType.authType ≠ "jwt") :
    (apiModelToEntity m).AuthType = .unspecified := by
  unfold apiModelToEntity
  simp only [hv, if_true]
  split <;> (try split) <;> simp_all

theorem C8_witness :
    c8model.AuthType.valid = true ∧
    (apiModelToEntity c8model).AuthType = entities.AuthType.unspecified :=
  ⟨rfl, C8_silent_default_amended c8model rfl (by decide) (by decide)⟩

/-- C9 counterexample: decoding a persisted Api row with auth type `jwt`
and a stored keyAuthId yields an entity with `AuthType = jwt` and a
non-empty `KeyAuthId` — the claimed invariant (keyAuthId non-empty iff
authType = key) is violated by the translator. -/
theorem C9_counterexample :
    (apiModelToEntity c9model).AuthType = entities.AuthType.jwt ∧
    (apiModelToEntity c9model).KeyAuthId = "ka_1" ∧
    (apiModelToEntity c9model).KeyAuthId ≠ "" := by
  refine ⟨rfl, rfl, by decide⟩

/-- C9 (amended): `apiModelToEntity` copies the stored keyAuthId column's
string into the entity unconditionally (conversion.go line 151), for every
row and independently of the stored auth type; so the entity's `KeyAuthId`
is non-empty exactly when the stored string is, regardless of whether
`AuthType = key`. -/
theorem C9_keyauthid_copied_unconditionally (m : models.API) :
    (apiModelToEntity m).KeyAuthId = m.KeyAuthID.string := by
  unfold apiModelToEntity
  split <;> split <;> first
    | rfl
    | (split <;> rfl)

/-- C10: `apiEntityToModel` writes the persisted auth-type column as the
`key` variant, marked present, for every entity — so encoding an Api with
`AuthType = jwt` (or any other value) and decoding it back yields an entity
with `AuthType = key`. -/
theorem C10_authtype_always_written_key (a : entities.Api) :
    (apiEntityToModel a).AuthType = { authType := "key", valid := true } ∧
    (apiModelToEntity (apiEntityToModel a)).AuthType = entities.AuthType.key := by
  constructor
  · rfl
  · unfold apiModelToEntity apiEntityToModel
    split <;> rfl
